import Mathlib

/-!
A shallow embedding of the booben-types structural type engine
(src/lib/builtin-types.js) together with theorems settling the claims
about it.

Modelling conventions:
* JavaScript values are modelled by the inductive type `Value`.  Numbers are
  modelled as integers: every number the engine's own tables produce is
  integral, and NaN / Infinity (rejected by the isFinite guard in isNumber)
  are not representable.
* A type definition object is modelled by `TypeDef`; each optional property
  (notNull, ofType, fields, options, required, name) is an `Option`, where
  `none` means the property is absent from the object.  An entry of the
  options array is modelled by its value component (the engine never reads
  textKey).
* JavaScript exceptions are modelled with `Except JsError`.  `JsError.typeError`
  stands for the TypeErrors raised by property accesses on undefined and by
  dispatching on a kind that has no entry in the TYPES table.
* The recursive engine operations that can descend through the registry
  (type equality / compatibility, default construction, coercion, and
  validation) take an explicit fuel argument, since a cyclic registry makes
  the JavaScript originals diverge; running out of fuel yields the artificial
  error `JsError.outOfFuel`, which the source can never produce.
-/

namespace Booben

/-- JavaScript runtime values, as far as the engine inspects them. -/
inductive Value where
  | str : String → Value
  | num : Int → Value
  | bool : Bool → Value
  | null : Value
  | undefValue : Value
  | arr : List Value → Value
  | obj : List (String × Value) → Value

/-- A type-definition object (BoobenTypeDefinition in src/lib/jsdoc.js):
type name plus the optional properties notNull, ofType, fields, options,
required and name, in that order. -/
inductive TypeDef where
  | mk : String → Option Bool → Option TypeDef →
         Option (List (String × TypeDef)) → Option (List Value) →
         Option Bool → Option String → TypeDef

/-- The type property (the kind tag) of a definition. -/
def TypeDef.type : TypeDef → String
  | .mk t _ _ _ _ _ _ => t

/-- The notNull property of a definition (none when absent). -/
def TypeDef.notNull : TypeDef → Option Bool
  | .mk _ n _ _ _ _ _ => n

/-- The ofType property of a definition (none when absent). -/
def TypeDef.ofType : TypeDef → Option TypeDef
  | .mk _ _ o _ _ _ _ => o

/-- The fields property of a definition (none when absent). -/
def TypeDef.fields : TypeDef → Option (List (String × TypeDef))
  | .mk _ _ _ f _ _ _ => f

/-- The options property of a definition (none when absent); each option is
represented by its value. -/
def TypeDef.options : TypeDef → Option (List Value)
  | .mk _ _ _ _ o _ _ => o

/-- The required property of a definition (none when absent). -/
def TypeDef.required : TypeDef → Option Bool
  | .mk _ _ _ _ _ r _ => r

/-- The name property of a definition (none when absent). -/
def TypeDef.name : TypeDef → Option String
  | .mk _ _ _ _ _ _ n => n

/-- Replace the top-level required property of a definition. -/
def TypeDef.withRequired (r : Option Bool) : TypeDef → TypeDef
  | .mk t n o f op _ nm => .mk t n o f op r nm

/-- A registry of user-defined types (the userTypedefs parameter).  The absent
registry (null in the source) is modelled by the empty list, which behaves
identically: the lookup in resolveTypedef yields nothing either way. -/
abbrev Registry := List (String × TypeDef)

/-- Look a name up in a registry (userTypedefs[name]). -/
def lookupReg (reg : Registry) (k : String) : Option TypeDef :=
  match reg with
  | [] => none
  | (k', td) :: rest => if k' = k then some td else lookupReg rest k

/-- Look a field name up in a fields mapping (fields[key]). -/
def lookupField (flds : List (String × TypeDef)) (k : String) : Option TypeDef :=
  match flds with
  | [] => none
  | (k', td) :: rest => if k' = k then some td else lookupField rest k

/-- Truthiness of an optional boolean property: a property is truthy exactly
when it is present and true (undefined and false are both falsy). -/
def truthy : Option Bool → Bool
  | some b => b
  | none => false

/-- The membership test of the BUILTIN_TYPES set built from the TypeNames
table of src/lib/builtin-types.js.  That table has the twelve entries STRING,
BOOL, INT, FLOAT, ONE_OF, SHAPE, OBJECT, OBJECT_OF, ARRAY, ARRAY_OF, FUNC and
COMPONENT; it has no SCALAR entry, although the engine file refers to
TypeNames.SCALAR. -/
def isBuiltinType (t : String) : Bool :=
  t = "string" || t = "bool" || t = "int" || t = "float" ||
  t = "oneOf" || t = "shape" || t = "object" || t = "objectOf" ||
  t = "array" || t = "arrayOf" || t = "func" || t = "component"

/-- Object.assign({}, typedef, entry): start from the reference typedef's
properties and copy every property present on the registry entry over them,
so the entry wins whenever both carry the property. -/
def mergeTypeDef (td entry : TypeDef) : TypeDef :=
  .mk entry.type
    (match entry.notNull with | some b => some b | none => td.notNull)
    (match entry.ofType with | some o => some o | none => td.ofType)
    (match entry.fields with | some f => some f | none => td.fields)
    (match entry.options with | some o => some o | none => td.options)
    (match entry.required with | some r => some r | none => td.required)
    (match entry.name with | some n => some n | none => td.name)

/-- resolveTypedef: a built-in kind resolves to itself; a user-defined kind
resolves through the registry, merging the reference onto the entry, and
fails (null) when the registry has no entry. -/
def resolveTypedef (td : TypeDef) (reg : Registry) : Option TypeDef :=
  if isBuiltinType td.type then some td
  else
    match lookupReg reg td.type with
    | some entry => some (mergeTypeDef td entry)
    | none => none

/-- Errors the engine can signal.  The source throws plain Error objects;
the constructors record which throw site fired and its data.  typeError
models the TypeErrors JavaScript itself raises (property access on
undefined/null, dispatch on a kind without a TYPES entry).  outOfFuel is an
artifact of the fuel-indexed embedding and corresponds to no source
behaviour. -/
inductive JsError where
  | unresolvedType : String → JsError
  | incompatiblePathStep : String → JsError
  | uncoercibleType : String → String → JsError
  | typeError : JsError
  | outOfFuel : JsError
deriving DecidableEq

/-- The predicate isString from src/unnamed/part_001. -/
def isStringV : Value → Bool
  | .str _ => true
  | _ => false

/-- The predicate isBoolean from src/unnamed/part_001. -/
def isBooleanV : Value → Bool
  | .bool _ => true
  | _ => false

/-- The predicate isNumber (finite number) from src/unnamed/part_001; with
numbers modelled as integers, every num is finite. -/
def isNumberV : Value → Bool
  | .num _ => true
  | _ => false

/-- The predicate isInteger from src/unnamed/part_001; an integral num always
satisfies the value-mod-one test. -/
def isIntegerV : Value → Bool
  | .num _ => true
  | _ => false

/-- Array.isArray. -/
def isArrayV : Value → Bool
  | .arr _ => true
  | _ => false

/-- Whether the typeof operator yields the string object for a value (null,
arrays and plain objects). -/
def typeofIsObject : Value → Bool
  | .null => true
  | .arr _ => true
  | .obj _ => true
  | _ => false

/-- Whether a value is null. -/
def isNullV : Value → Bool
  | .null => true
  | _ => false

/-- Whether a value is undefined (the typeof-undefined test in the shape
validator). -/
def isUndef : Value → Bool
  | .undefValue => true
  | _ => false

/-- JavaScript strict equality on the values the engine compares with it.
Scalar values compare by value.  Two composite values (arrays, objects) are
compared by reference in JavaScript; the embedding has no object identity and
makes distinct composite operands compare unequal, which matches every
comparison the engine performs (option values are scalars per the data
model). -/
def strictEq : Value → Value → Bool
  | .str a, .str b => a = b
  | .num a, .num b => a = b
  | .bool a, .bool b => a = b
  | .null, .null => true
  | .undefValue, .undefValue => true
  | _, _ => false

/-- Lookup of an own property in the key-value list of a plain object. -/
def lookupProp : List (String × Value) → String → Option Value
  | [], _ => none
  | (k', x) :: rest, k => if k' = k then some x else lookupProp rest k

/-- Property access value[key] as the engine uses it on candidate values: a
lookup of an own property of a plain object; any other receiver yields
undefined.  (String-keyed access on arrays and strings, e.g. length, is not
modelled; no operation of the engine reaches it with a declared field
name.) -/
def getProp (v : Value) (k : String) : Value :=
  match v with
  | .obj ps =>
    match lookupProp ps k with
    | some x => x
    | none => .undefValue
  | _ => .undefValue

/-- Short-circuiting every over a list with an exception-throwing predicate:
the first thrown error or false result stops the traversal. -/
def allExcept : List α → (α → Except JsError Bool) → Except JsError Bool
  | [], _ => .ok true
  | x :: xs, f =>
    match f x with
    | .error e => .error e
    | .ok false => .ok false
    | .ok true => allExcept xs f

/-- Element-wise map over a list with an exception-throwing function
(Array.prototype.map / lodash mapValues under thrown exceptions). -/
def mapExcept : List α → (α → Except JsError β) → Except JsError (List β)
  | [], _ => .ok []
  | x :: xs, f =>
    match f x with
    | .error e => .error e
    | .ok y =>
      match mapExcept xs f with
      | .error e => .error e
      | .ok ys => .ok (y :: ys)

/-- oneOfOptionsAreEqual: same length and every option value of the first
list is found (by strict equality) among the second list's option values. -/
def oneOfOptionsAreEqual (o1 o2 : List Value) : Bool :=
  o1.length = o2.length && o1.all (fun v1 => o2.any (fun v2 => strictEq v2 v1))

/-- hasOwnProperty applied to a type-definition object itself: the own
properties of the object literal are its type property plus every optional
property that is present. -/
def hasOwnPropertyDef (d : TypeDef) (k : String) : Bool :=
  k = "type" ||
  (k = "notNull" && d.notNull.isSome) ||
  (k = "ofType" && d.ofType.isSome) ||
  (k = "fields" && d.fields.isSome) ||
  (k = "options" && d.options.isSome) ||
  (k = "required" && d.required.isSome) ||
  (k = "name" && d.name.isSome)

/-- isValidValue: resolve the definition (throwing when resolution fails) and
dispatch the kind's validator, recursing into element, value and field types.
The dispatch follows the TYPES table of the engine; the case for the type
tag undefined is the table entry written as TYPES[TypeNames.SCALAR], whose
key collapses to the string undefined because the TypeNames table defines no
SCALAR name.  A resolved kind with no table entry raises a TypeError, as the
dispatch on undefined does in JavaScript. -/
def isValidValue (fuel : Nat) (value : Value) (td : TypeDef) (reg : Registry) :
    Except JsError Bool :=
  match fuel with
  | 0 => .error .outOfFuel
  | fuel + 1 =>
    match resolveTypedef td reg with
    | none => .error (.unresolvedType td.type)
    | some r =>
      match r.type with
      | "string" => .ok (isStringV value)
      | "bool" => .ok (isBooleanV value)
      | "int" => .ok (isIntegerV value)
      | "float" => .ok (isNumberV value)
      | "oneOf" =>
        match r.options with
        | some opts => .ok (opts.any (fun ov => strictEq ov value))
        | none => .error .typeError
      | "array" => .ok (isArrayV value)
      | "arrayOf" =>
        match value with
        | .arr items =>
          allExcept items (fun item =>
            match r.ofType with
            | some ot => isValidValue fuel item ot reg
            | none => .error .typeError)
        | _ => .ok false
      | "object" =>
        .ok (typeofIsObject value && (!truthy r.notNull || !isNullV value))
      | "objectOf" =>
        match value with
        | .null => .ok (!truthy r.notNull)
        | .obj ps =>
          allExcept ps (fun p =>
            match r.ofType with
            | some ot => isValidValue fuel p.2 ot reg
            | none => .error .typeError)
        | .arr items =>
          allExcept items (fun item =>
            match r.ofType with
            | some ot => isValidValue fuel item ot reg
            | none => .error .typeError)
        | _ => .ok false
      | "shape" =>
        match value with
        | .null => .ok (!truthy r.notNull)
        | .obj ps =>
          match r.fields with
          | some flds =>
            allExcept flds (fun p =>
              if isUndef (getProp (.obj ps) p.1) then .ok (!truthy p.2.required)
              else isValidValue fuel (getProp (.obj ps) p.1) p.2 reg)
          | none => .error .typeError
        | .arr items =>
          match r.fields with
          | some flds =>
            allExcept flds (fun p =>
              if isUndef (getProp (.arr items) p.1) then .ok (!truthy p.2.required)
              else isValidValue fuel (getProp (.arr items) p.1) p.2 reg)
          | none => .error .typeError
        | _ => .ok false
      | "component" => .ok true
      | "func" => .ok true
      | "undefined" => .ok (isNumberV value || isBooleanV value || isStringV value)
      | _ => .error .typeError

/-- The worker _isEqualType: resolve both definitions (throwing when either
fails), return false on distinct resolved kinds, apply the required test only
when checkRequired is set, then dispatch the kind's isEqualType.  Inside the
shape case the source tests hasOwnProperty(typedef2, key) against the second
definition object itself, not against its fields mapping; the embedding
reproduces that.  When a field name is an own property of the second
definition but absent from its fields mapping, the recursive call receives
undefined as its second definition: it first resolves the first field type
(throwing its resolution error if that fails) and then raises a TypeError. -/
def isEqualTypeF (fuel : Nat) (td1 td2 : TypeDef) (reg1 reg2 : Registry)
    (checkRequired : Bool) : Except JsError Bool :=
  match fuel with
  | 0 => .error .outOfFuel
  | fuel + 1 =>
    match resolveTypedef td1 reg1 with
    | none => .error (.unresolvedType td1.type)
    | some r1 =>
      match resolveTypedef td2 reg2 with
      | none => .error (.unresolvedType td2.type)
      | some r2 =>
        if r1.type ≠ r2.type then .ok false
        else if checkRequired && (truthy r1.required != truthy r2.required) then .ok false
        else
          match r1.type with
          | "string" => .ok true
          | "bool" => .ok true
          | "int" => .ok true
          | "float" => .ok true
          | "oneOf" =>
            match r1.options, r2.options with
            | some o1, some o2 => .ok (oneOfOptionsAreEqual o1 o2)
            | _, _ => .error .typeError
          | "array" => .ok true
          | "arrayOf" =>
            match r1.ofType, r2.ofType with
            | some a, some b => isEqualTypeF fuel a b reg1 reg2 false
            | none, _ => .error .typeError
            | some a, none =>
              match resolveTypedef a reg1 with
              | none => .error (.unresolvedType a.type)
              | some _ => .error .typeError
          | "object" => .ok (r1.notNull == r2.notNull)
          | "objectOf" =>
            if r1.notNull != r2.notNull then .ok false
            else
              match r1.ofType, r2.ofType with
              | some a, some b => isEqualTypeF fuel a b reg1 reg2 false
              | none, _ => .error .typeError
              | some a, none =>
                match resolveTypedef a reg1 with
                | none => .error (.unresolvedType a.type)
                | some _ => .error .typeError
          | "shape" =>
            if r1.notNull != r2.notNull then .ok false
            else
              match r1.fields, r2.fields with
              | some f1, some f2 =>
                if f1.length ≠ f2.length then .ok false
                else
                  allExcept f1 (fun p =>
                    if !hasOwnPropertyDef r2 p.1 then .ok false
                    else
                      match lookupField f2 p.1 with
                      | some ftd2 => isEqualTypeF fuel p.2 ftd2 reg1 reg2 true
                      | none =>
                        match resolveTypedef p.2 reg1 with
                        | none => .error (.unresolvedType p.2.type)
                        | some _ => .error .typeError)
              | _, _ => .error .typeError
          | "component" => .ok true
          | "func" => .ok false
          | "undefined" => .ok (r1.name == r2.name)
          | _ => .error .typeError

/-- isEqualType, the public entry point: the worker with checkRequired
false. -/
def isEqualType (fuel : Nat) (td1 td2 : TypeDef) (reg1 reg2 : Registry) :
    Except JsError Bool :=
  isEqualTypeF fuel td1 td2 reg1 reg2 false

/-- The worker _isCompatibleType: resolve both definitions, apply the
directional required test only when checkRequired is set, then dispatch the
first resolved kind's isCompatibleType.  The shape case has the same
hasOwnProperty(typedef2, key) test as equality.  The scalar entry of the
TYPES table sits under the key undefined (TypeNames.SCALAR is undefined) and
its compatibility test compares the second resolved type tag, a string, with
the undefined TypeNames.SCALAR, which is always false. -/
def isCompatibleTypeF (fuel : Nat) (td1 td2 : TypeDef) (reg1 reg2 : Registry)
    (checkRequired : Bool) : Except JsError Bool :=
  match fuel with
  | 0 => .error .outOfFuel
  | fuel + 1 =>
    match resolveTypedef td1 reg1 with
    | none => .error (.unresolvedType td1.type)
    | some r1 =>
      match resolveTypedef td2 reg2 with
      | none => .error (.unresolvedType td2.type)
      | some r2 =>
        if checkRequired && truthy r1.required && !truthy r2.required then .ok false
        else
          match r1.type with
          | "string" =>
            .ok (r2.type = "string" || r2.type = "int" || r2.type = "float")
          | "bool" =>
            .ok (r2.type = "bool" || r2.type = "string" || r2.type = "int" ||
                 r2.type = "float")
          | "int" => .ok (r2.type = "int")
          | "float" => .ok (r2.type = "float" || r2.type = "int")
          | "oneOf" =>
            if r2.type ≠ "oneOf" then .ok false
            else
              match r1.options, r2.options with
              | some o1, some o2 => .ok (oneOfOptionsAreEqual o1 o2)
              | _, _ => .error .typeError
          | "array" => .ok (r2.type = "array" || r2.type = "arrayOf")
          | "arrayOf" =>
            if r2.type ≠ "arrayOf" then .ok false
            else
              match r1.ofType, r2.ofType with
              | some a, some b => isCompatibleTypeF fuel a b reg1 reg2 false
              | none, _ => .error .typeError
              | some a, none =>
                match resolveTypedef a reg1 with
                | none => .error (.unresolvedType a.type)
                | some _ => .error .typeError
          | "object" =>
            .ok ((r2.type = "object" || r2.type = "objectOf" || r2.type = "shape") &&
                 (!truthy r1.notNull || truthy r2.notNull))
          | "objectOf" =>
            if r2.type ≠ "objectOf" then .ok false
            else
              match r1.ofType, r2.ofType with
              | some a, some b =>
                match isCompatibleTypeF fuel a b reg1 reg2 false with
                | .error e => .error e
                | .ok false => .ok false
                | .ok true => .ok (!truthy r1.notNull || truthy r2.notNull)
              | none, _ => .error .typeError
              | some a, none =>
                match resolveTypedef a reg1 with
                | none => .error (.unresolvedType a.type)
                | some _ => .error .typeError
          | "shape" =>
            if r2.type ≠ "shape" then .ok false
            else if truthy r1.notNull && !truthy r2.notNull then .ok false
            else
              match r1.fields, r2.fields with
              | some f1, some f2 =>
                if f1.length ≠ f2.length then .ok false
                else
                  allExcept f1 (fun p =>
                    if !hasOwnPropertyDef r2 p.1 then .ok false
                    else
                      match lookupField f2 p.1 with
                      | some ftd2 => isCompatibleTypeF fuel p.2 ftd2 reg1 reg2 true
                      | none =>
                        match resolveTypedef p.2 reg1 with
                        | none => .error (.unresolvedType p.2.type)
                        | some _ => .error .typeError)
              | _, _ => .error .typeError
          | "component" => .ok (r2.type = "component")
          | "func" => .ok false
          | "undefined" => .ok false
          | _ => .error .typeError

/-- isCompatibleType, the public entry point: the worker with checkRequired
false. -/
def isCompatibleType (fuel : Nat) (td1 td2 : TypeDef) (reg1 reg2 : Registry) :
    Except JsError Bool :=
  isCompatibleTypeF fuel td1 td2 reg1 reg2 false

/-- The worker _makeDefaultValue: resolve the definition, then dispatch the
resolved kind's makeDefaultValue.  The source passes the ORIGINAL typedef to
the dispatched entry, not the resolved one, so the object, objectOf, oneOf
and shape cases below read the unresolved definition's properties.  The
object and objectOf entries return null when notNull or the nonNull option
holds and an empty object otherwise, exactly as the source's conditional is
written.  The shape entry builds per-field defaults, resetting the options
to all-false for the recursion unless deepNonNull is set; a missing fields
property yields an empty object (lodash mapValues of undefined). -/
def makeDefaultValueF (fuel : Nat) (td : TypeDef) (reg : Registry)
    (nonNull deepNonNull : Bool) : Except JsError Value :=
  match fuel with
  | 0 => .error .outOfFuel
  | fuel + 1 =>
    match resolveTypedef td reg with
    | none => .error (.unresolvedType td.type)
    | some r =>
      match r.type with
      | "string" => .ok (.str "")
      | "bool" => .ok (.bool false)
      | "int" => .ok (.num 0)
      | "float" => .ok (.num 0)
      | "oneOf" =>
        match td.options with
        | some (v :: _) => .ok v
        | some [] => .error .typeError
        | none => .error .typeError
      | "array" => .ok (.arr [])
      | "arrayOf" => .ok (.arr [])
      | "object" => .ok (if truthy td.notNull || nonNull then .null else .obj [])
      | "objectOf" => .ok (if truthy td.notNull || nonNull then .null else .obj [])
      | "shape" =>
        if truthy td.notNull || nonNull then
          match td.fields with
          | some flds =>
            match mapExcept flds (fun p =>
                match makeDefaultValueF fuel p.2 reg
                    (if deepNonNull then nonNull else false)
                    (if deepNonNull then deepNonNull else false) with
                | .error e => .error e
                | .ok v => .ok (p.1, v)) with
            | .error e => .error e
            | .ok ps => .ok (.obj ps)
          | none => .ok (.obj [])
        else .ok .null
      | "component" => .ok .null
      | "func" => .ok .null
      | "undefined" => .ok (.str "")
      | _ => .error .typeError

/-- makeDefaultValue: nullable defaults (nonNull and deepNonNull both
false). -/
def makeDefaultValue (fuel : Nat) (td : TypeDef) (reg : Registry) :
    Except JsError Value :=
  makeDefaultValueF fuel td reg false false

/-- makeDefaultNonNullValue: shallow non-null defaults (nonNull true,
deepNonNull false). -/
def makeDefaultNonNullValue (fuel : Nat) (td : TypeDef) (reg : Registry) :
    Except JsError Value :=
  makeDefaultValueF fuel td reg true false

/-- String(value) for the values the string coercions receive.  Arrays
stringify through Array.prototype.toString; that recursion is not modelled
(no claim reaches it) and an array renders as an empty string here. -/
def jsToString : Value → String
  | .str s => s
  | .num n => toString n
  | .bool b => if b then "true" else "false"
  | .null => "null"
  | .undefValue => "undefined"
  | .arr _ => ""
  | .obj _ => "[object Object]"

/-- Whether the TYPES dispatch table has an entry for a type tag: the twelve
built-in names plus the scalar entry, whose key collapsed to the string
undefined. -/
def hasTypesEntry (t : String) : Bool :=
  isBuiltinType t || t = "undefined"

/-- Whether the coerce table of the destination kind's TYPES entry has an
entry for the source kind, transcribed from the coerce objects of the
source. -/
def coerceTableHas (toT fromT : String) : Bool :=
  match toT with
  | "string" => fromT = "string" || fromT = "int" || fromT = "float"
  | "bool" => fromT = "bool" || fromT = "string" || fromT = "int" || fromT = "float"
  | "int" => fromT = "int"
  | "float" => fromT = "float" || fromT = "int"
  | "oneOf" => fromT = "oneOf"
  | "array" => fromT = "array" || fromT = "arrayOf"
  | "arrayOf" => fromT = "arrayOf"
  | "object" => fromT = "object" || fromT = "objectOf" || fromT = "shape"
  | "objectOf" => fromT = "objectOf"
  | "shape" => fromT = "shape"
  | "component" => false
  | "func" => false
  | "undefined" => fromT = "undefined"
  | _ => false

/-- The string-to-bool coercion value.length !== 0, evaluated on an arbitrary
value: reading length of null or undefined raises a TypeError; an array has a
numeric length; every other receiver yields undefined, and undefined !== 0
holds. -/
def lengthNonZero : Value → Except JsError Value
  | .str s => .ok (.bool (s.length ≠ 0))
  | .null => .error .typeError
  | .undefValue => .error .typeError
  | .arr l => .ok (.bool (l.length ≠ 0))
  | _ => .ok (.bool true)

/-- coerceValue: resolve both definitions, look the source kind up in the
destination kind's coerce table (raising the cannot-coerce error when the
entry is absent) and run the coercion, which receives the RESOLVED
definitions.  The composite coercions recurse: arrayOf element-wise, objectOf
value-wise preserving null, shape over the source shape's declared fields.
A recursion into a missing ofType or a field missing from the destination's
fields mapping passes undefined as a definition: the source-side definition
is resolved first (propagating its resolution error) and then reading the
type property of undefined raises a TypeError.  Lodash mapValues turns a
non-object receiver into an empty object and maps an array over its
indices. -/
def coerceValue (fuel : Nat) (value : Value) (tdFrom tdTo : TypeDef)
    (regFrom regTo : Registry) : Except JsError Value :=
  match fuel with
  | 0 => .error .outOfFuel
  | fuel + 1 =>
    match resolveTypedef tdFrom regFrom with
    | none => .error (.unresolvedType tdFrom.type)
    | some rF =>
      match resolveTypedef tdTo regTo with
      | none => .error (.unresolvedType tdTo.type)
      | some rT =>
        if !hasTypesEntry rT.type then .error .typeError
        else if !coerceTableHas rT.type rF.type then
          .error (.uncoercibleType rF.type rT.type)
        else
          match rT.type with
          | "string" =>
            if rF.type = "string" then .ok value else .ok (.str (jsToString value))
          | "bool" =>
            if rF.type = "bool" then .ok value
            else if rF.type = "string" then lengthNonZero value
            else .ok (.bool (!strictEq value (.num 0)))
          | "int" => .ok value
          | "float" => .ok value
          | "oneOf" => .ok value
          | "array" => .ok value
          | "arrayOf" =>
            match value with
            | .arr items =>
              match mapExcept items (fun item =>
                  match rF.ofType, rT.ofType with
                  | some a, some b => coerceValue fuel item a b regFrom regTo
                  | none, _ => .error .typeError
                  | some a, none =>
                    match resolveTypedef a regFrom with
                    | none => .error (.unresolvedType a.type)
                    | some _ => .error .typeError) with
              | .error e => .error e
              | .ok ys => .ok (.arr ys)
            | _ => .error .typeError
          | "object" => .ok value
          | "objectOf" =>
            match value with
            | .null => .ok .null
            | .obj ps =>
              match mapExcept ps (fun p =>
                  match rF.ofType, rT.ofType with
                  | some a, some b =>
                    match coerceValue fuel p.2 a b regFrom regTo with
                    | .error e => .error e
                    | .ok y => .ok (p.1, y)
                  | none, _ => .error .typeError
                  | some a, none =>
                    match resolveTypedef a regFrom with
                    | none => .error (.unresolvedType a.type)
                    | some _ => .error .typeError) with
              | .error e => .error e
              | .ok ys => .ok (.obj ys)
            | .arr items =>
              match mapExcept items (fun item =>
                  match rF.ofType, rT.ofType with
                  | some a, some b => coerceValue fuel item a b regFrom regTo
                  | none, _ => .error .typeError
                  | some a, none =>
                    match resolveTypedef a regFrom with
                    | none => .error (.unresolvedType a.type)
                    | some _ => .error .typeError) with
              | .error e => .error e
              | .ok ys => .ok (.obj (ys.enum.map (fun p => (toString p.1, p.2))))
            | _ => .ok (.obj [])
          | "shape" =>
            match value with
            | .null => .ok .null
            | .undefValue => .error .typeError
            | _ =>
              match rF.fields with
              | some flds =>
                match mapExcept flds (fun p =>
                    match rT.fields with
                    | none => .error .typeError
                    | some f2 =>
                      match lookupField f2 p.1 with
                      | some ftdTo =>
                        match coerceValue fuel (getProp value p.1) p.2 ftdTo regFrom regTo with
                        | .error e => .error e
                        | .ok y => .ok (p.1, y)
                      | none =>
                        match resolveTypedef p.2 regFrom with
                        | none => .error (.unresolvedType p.2.type)
                        | some _ => .error .typeError) with
                | .error e => .error e
                | .ok ys => .ok (.obj ys)
              | none => .ok (.obj [])
          | "undefined" => .ok value
          | _ => .error .typeError

/-- A step of a getNestedTypedef path: a string (field or map key) or a
number (array index). -/
inductive PathStep where
  | field : String → PathStep
  | index : Int → PathStep
deriving DecidableEq

/-- One reduction step of getNestedTypedef: resolve the accumulated
definition (none models the undefined produced by a missing field, whose
resolution raises a TypeError), then descend according to the step: a string
step into the ofType of an objectOf or the named field of a shape, a numeric
step into the ofType of an arrayOf; any other resolved kind raises the
incompatible-type error. -/
def getNestedStep (reg : Registry) (acc : Option TypeDef) (step : PathStep) :
    Except JsError (Option TypeDef) :=
  match acc with
  | none => .error .typeError
  | some td =>
    match resolveTypedef td reg with
    | none => .error (.unresolvedType td.type)
    | some r =>
      match step with
      | .field s =>
        if r.type = "objectOf" then .ok r.ofType
        else if r.type = "shape" then
          match r.fields with
          | some flds => .ok (lookupField flds s)
          | none => .error .typeError
        else .error (.incompatiblePathStep r.type)
      | .index _ =>
        if r.type = "arrayOf" then .ok r.ofType
        else .error (.incompatiblePathStep r.type)

/-- getNestedTypedef: reduce the path left to right from the starting
definition. -/
def getNestedTypedef (td : TypeDef) (path : List PathStep) (reg : Registry) :
    Except JsError (Option TypeDef) :=
  path.foldlM (getNestedStep reg) (some td)

/-- A bare int definition. -/
def intDef : TypeDef := .mk "int" none none none none none none

/-- A bare string definition. -/
def strDef : TypeDef := .mk "string" none none none none none none

/-- A bare bool definition. -/
def boolDef : TypeDef := .mk "bool" none none none none none none

/-- A bare func definition. -/
def funcDef : TypeDef := .mk "func" none none none none none none

/-- The definition of the concrete scenario of C3: objectOf int with notNull
set. -/
def objectOfIntNN : TypeDef := .mk "objectOf" (some true) (some intDef) none none none none

/-- A shape definition with the single field x of type int. -/
def shapeXDef : TypeDef := .mk "shape" none none (some [("x", intDef)]) none none none

/-- An object definition with notNull set. -/
def objectNNDef : TypeDef := .mk "object" (some true) none none none none none

/-- A notNull shape whose single field o is a notNull object (the C4 failing
input). -/
def shapeONNDef : TypeDef := .mk "shape" (some true) none (some [("o", objectNNDef)]) none none none

/-- A shape definition with the single field n of type int. -/
def shapeNDef : TypeDef := .mk "shape" none none (some [("n", intDef)]) none none none

/-- The definition of the concrete scenario of C8: arrayOf the shape with
field n. -/
def arrayOfShapeNDef : TypeDef := .mk "arrayOf" none (some shapeNDef) none none none none

/-- A reference to the user-defined type T carrying its own notNull true
flag. -/
def refTDef : TypeDef := .mk "T" (some true) none none none none none

/-- A registry mapping T to an object definition carrying notNull false. -/
def regTC1 : Registry := [("T", .mk "object" (some false) none none none none none)]

/-- A reference to a name absent from every registry used below. -/
def unknownRefDef : TypeDef := .mk "Unknown" none none none none none none

/-- An arrayOf definition whose element type is the unresolvable reference. -/
def arrayOfUnknownDef : TypeDef := .mk "arrayOf" none (some unknownRefDef) none none none none

/-- A shape whose single field is named required, with no top-level required
flag. -/
def shapeReqFieldDef : TypeDef := .mk "shape" none none (some [("required", intDef)]) none none none

/-- The same shape with the top-level required flag set to true. -/
def shapeReqFieldFlagDef : TypeDef := .mk "shape" none none (some [("required", intDef)]) none (some true) none

/-- Remaining path of a getNestedTypedef walk, continued from an accumulated
(possibly undefined) definition. -/
def getNestedFrom (acc : Option TypeDef) (path : List PathStep) (reg : Registry) :
    Except JsError (Option TypeDef) :=
  path.foldlM (getNestedStep reg) acc

/-- C2: reflexivity of isEqualType.  The engine returns false for a shape
compared with itself as soon as the shape has at least one field, because the
shape equality checker tests hasOwnProperty(typedef2, key) against the second
definition object instead of its fields mapping; reflexivity does hold for
the scalar-like kinds (int shown here) and is deliberately false for func.
The claim's universally quantified reflexivity for every non-func kind fails
at the one-field shape. -/
theorem isEqualType_shape_self_eval :
    isEqualType 2 shapeXDef shapeXDef [] [] = .ok false ∧
    isEqualType 1 intDef intDef [] [] = .ok true ∧
    isEqualType 1 funcDef funcDef [] [] = .ok false :=
  ⟨rfl, rfl, rfl⟩

/-- C3: the objectOf concrete scenario.  The first three evaluations agree
with the claim; the fourth diverges: makeDefaultNonNullValue of the notNull
objectOf returns null, not the empty object, because the objectOf
makeDefaultValue entry returns null exactly when notNull or the nonNull
option holds (the branches are inverted relative to the shape entry's
parallel conditional). -/
theorem objectOfIntNN_scenario_eval :
    isValidValue 2 (.obj [("a", .num 1), ("b", .num 2)]) objectOfIntNN [] = .ok true ∧
    isValidValue 1 .null objectOfIntNN [] = .ok false ∧
    makeDefaultValue 1 objectOfIntNN [] = .ok .null ∧
    makeDefaultNonNullValue 1 objectOfIntNN [] = .ok .null :=
  ⟨rfl, rfl, rfl, rfl⟩

/-- C4: a notNull shape whose field o is a notNull object.  makeDefaultValue
produces the field default null (the inverted objectOf/object default), and
the produced value fails isValidValue against the same shape, contradicting
the claim that shape defaults validate. -/
theorem shape_default_invalid_eval :
    makeDefaultValue 2 shapeONNDef [] = .ok (.obj [("o", .null)]) ∧
    isValidValue 2 (.obj [("o", .null)]) shapeONNDef [] = .ok false := by
  constructor
  · rfl
  · rfl

/-- C5: the set of built-in kinds in the code.  The TypeNames table of
src/lib/builtin-types.js has no SCALAR entry, so isBuiltinType accepts
exactly twelve names and rejects the tag scalar, although the claim lists
thirteen tags including scalar. -/
theorem isBuiltinType_scalar_eval :
    isBuiltinType "scalar" = false ∧
    ∀ k, isBuiltinType k = true ↔
      (k = "string" ∨ k = "bool" ∨ k = "int" ∨ k = "float" ∨
       k = "oneOf" ∨ k = "shape" ∨ k = "object" ∨ k = "objectOf" ∨
       k = "array" ∨ k = "arrayOf" ∨ k = "func" ∨ k = "component") := by
  refine ⟨rfl, fun k => ?_⟩
  simp [isBuiltinType, Bool.or_eq_true, decide_eq_true_eq, or_assoc]

/-- C5 witness: the characterization applied at two concrete names. -/
theorem isBuiltinType_scalar_eval_witness :
    isBuiltinType "scalar" = false ∧ isBuiltinType "int" = true :=
  ⟨isBuiltinType_scalar_eval.1,
   (isBuiltinType_scalar_eval.2 "int").mpr (Or.inr (Or.inr (Or.inl rfl)))⟩

/-- C9: whether a top-level isEqualType / isCompatibleType call ignores the
required flag of its operands.  It does not: for a shape whose field is named
required, the hasOwnProperty(typedef2, key) test reads the presence of the
second operand's top-level required flag, so two calls on definitions that
differ only in that flag disagree. -/
theorem required_flag_observed_eval :
    isEqualType 2 shapeReqFieldDef shapeReqFieldDef [] [] = .ok false ∧
    isEqualType 2 shapeReqFieldFlagDef shapeReqFieldFlagDef [] [] = .ok true ∧
    isCompatibleType 2 shapeReqFieldDef shapeReqFieldDef [] [] = .ok false ∧
    isCompatibleType 2 shapeReqFieldFlagDef shapeReqFieldFlagDef [] [] = .ok true :=
  ⟨rfl, rfl, rfl, rfl⟩

/-- C7 counterexample: a definition containing an unresolvable reference for
which isValidValue returns a boolean instead of failing.  The arrayOf
validator never resolves its element type when the array is empty. -/
theorem isValidValue_unreached_reference_ok :
    isValidValue 1 (.arr []) arrayOfUnknownDef [] = .ok true :=
  rfl

/-- C1 counterexample: a reference whose own notNull true flag does NOT
override the registry entry's notNull false; Object.assign puts the entry
after the reference, so the entry wins on conflict. -/
theorem resolveTypedef_reference_notNull_loses :
    (resolveTypedef refTDef regTC1).map TypeDef.notNull = some (some false) ∧
    ((resolveTypedef refTDef regTC1).map TypeDef.notNull
      == some (some true)) = false :=
  ⟨rfl, rfl⟩

/-- C1 (amended): resolution of a user-defined kind present in the registry
merges the registry entry's own fields over the reference's fields — the
entry wins on every conflict (its kind always replaces the reference's
name), and a reference field survives exactly when the entry does not carry
that field. -/
theorem resolveTypedef_registry_entry_wins :
    ∀ (td entry : TypeDef) (reg : Registry),
      isBuiltinType td.type = false →
      lookupReg reg td.type = some entry →
      ∃ r, resolveTypedef td reg = some r ∧
        r.type = entry.type ∧
        r.notNull = (entry.notNull <|> td.notNull) ∧
        r.ofType = (entry.ofType <|> td.ofType) ∧
        r.fields = (entry.fields <|> td.fields) ∧
        r.options = (entry.options <|> td.options) ∧
        r.required = (entry.required <|> td.required) ∧
        r.name = (entry.name <|> td.name) := by
  intro td entry reg h hl
  refine ⟨mergeTypeDef td entry, by simp [resolveTypedef, h, hl], ?_⟩
  obtain ⟨t, n, o, f, op, rq, nm⟩ := entry
  refine ⟨rfl, ?_, ?_, ?_, ?_, ?_, ?_⟩
  · cases n <;> rfl
  · cases o <;> rfl
  · cases f <;> rfl
  · cases op <;> rfl
  · cases rq <;> rfl
  · cases nm <;> rfl

/-- C1 witness: the merge applied to the counterexample reference: the
entry's object kind and notNull false land in the resolved definition. -/
theorem resolveTypedef_registry_entry_wins_witness :
    ∃ r, resolveTypedef refTDef regTC1 = some r ∧
      r.type = "object" ∧ r.notNull = some false := by
  obtain ⟨r, hr, ht, hn, -⟩ :=
    resolveTypedef_registry_entry_wins refTDef
      (.mk "object" (some false) none none none none none) regTC1 rfl rfl
  exact ⟨r, hr, ht, hn⟩

/-- C7 (amended): an unresolvable reference aborts isValidValue whenever the
descent actually reaches it: an unresolvable top-level kind fails with the
cannot-resolve error for every value, and an error from validating the first
element of a nonempty array against an arrayOf element type aborts the whole
call unchanged.  (The counterexample theorem shows the complement: a part of
the definition the value never forces the engine to visit is not
resolved.) -/
theorem isValidValue_unresolved_propagation :
    ∀ (fuel : Nat) (v : Value) (td : TypeDef) (reg : Registry),
      (isBuiltinType td.type = false → lookupReg reg td.type = none →
        isValidValue (fuel + 1) v td reg = .error (.unresolvedType td.type)) ∧
      ∀ (item : Value) (rest : List Value) (ot : TypeDef) (nn : Option Bool)
        (f : Option (List (String × TypeDef))) (op : Option (List Value))
        (rq : Option Bool) (nm : Option String) (e : JsError),
        isValidValue fuel item ot reg = .error e →
        isValidValue (fuel + 1) (.arr (item :: rest))
          (.mk "arrayOf" nn (some ot) f op rq nm) reg = .error e := by
  intro fuel v td reg
  constructor
  · intro h hl
    simp [isValidValue, resolveTypedef, h, hl]
  · intro item rest ot nn f op rq nm e he
    simp [isValidValue, resolveTypedef, isBuiltinType, TypeDef.type, TypeDef.ofType,
      allExcept, he]

/-- C7 witness: the amended statement at the unresolvable reference: the
top-level failure and the propagation out of a one-element array. -/
theorem isValidValue_unresolved_propagation_witness :
    isValidValue 2 .null unknownRefDef [] = .error (.unresolvedType "Unknown") ∧
    isValidValue 2 (.arr [.null]) arrayOfUnknownDef [] =
      .error (.unresolvedType "Unknown") := by
  refine ⟨(isValidValue_unresolved_propagation 1 .null unknownRefDef []).1 rfl rfl, ?_⟩
  exact (isValidValue_unresolved_propagation 1 .null unknownRefDef []).2 .null []
    unknownRefDef none none none none none (.unresolvedType "Unknown")
    ((isValidValue_unresolved_propagation 0 .null unknownRefDef []).1 rfl rfl)

/-- C8: getNestedTypedef walks the path left to right, resolving at each
hop: a string step on a resolved objectOf descends into ofType, a string
step on a resolved shape descends into the named field, a numeric step on a
resolved arrayOf descends into ofType, any other combination fails with the
incompatible-type error (carrying the resolved kind), a resolution failure
fails with the cannot-resolve error, and the concrete scenario returns the
int definition. -/
theorem getNestedTypedef_step_spec :
    (∀ (td r : TypeDef) (reg : Registry) (s : String) (n : Int) (ps : List PathStep),
      (resolveTypedef td reg = some r →
        ((r.type = "objectOf" →
            getNestedTypedef td (.field s :: ps) reg = getNestedFrom r.ofType ps reg) ∧
         (∀ flds, r.type = "shape" → r.fields = some flds →
            getNestedTypedef td (.field s :: ps) reg =
              getNestedFrom (lookupField flds s) ps reg) ∧
         (r.type ≠ "objectOf" → r.type ≠ "shape" →
            getNestedTypedef td (.field s :: ps) reg =
              .error (.incompatiblePathStep r.type)) ∧
         (r.type = "arrayOf" →
            getNestedTypedef td (.index n :: ps) reg = getNestedFrom r.ofType ps reg) ∧
         (r.type ≠ "arrayOf" →
            getNestedTypedef td (.index n :: ps) reg =
              .error (.incompatiblePathStep r.type)))) ∧
      (resolveTypedef td reg = none →
        getNestedTypedef td (.field s :: ps) reg = .error (.unresolvedType td.type) ∧
        getNestedTypedef td (.index n :: ps) reg = .error (.unresolvedType td.type))) ∧
    getNestedTypedef arrayOfShapeNDef [.index 0, .field "n"] [] = .ok (some intDef) := by
  refine ⟨?_, rfl⟩
  intro td r reg s n ps
  constructor
  · intro hr
    refine ⟨?_, ?_, ?_, ?_, ?_⟩
    · intro ht
      simp [getNestedTypedef, getNestedFrom, List.foldlM_cons, getNestedStep, hr, Bind.bind, Except.bind, ht]
    · intro flds ht hf
      simp [getNestedTypedef, getNestedFrom, List.foldlM_cons, getNestedStep, hr, Bind.bind, Except.bind, ht, hf]
    · intro h1 h2
      simp [getNestedTypedef, getNestedFrom, List.foldlM_cons, getNestedStep, hr, Bind.bind, Except.bind, h1, h2]
    · intro ht
      simp [getNestedTypedef, getNestedFrom, List.foldlM_cons, getNestedStep, hr, Bind.bind, Except.bind, ht]
    · intro ht
      simp [getNestedTypedef, getNestedFrom, List.foldlM_cons, getNestedStep, hr, Bind.bind, Except.bind, ht]
  · intro hr
    constructor <;>
      simp [getNestedTypedef, getNestedFrom, List.foldlM_cons, getNestedStep, hr, Bind.bind, Except.bind]

/-- C8 witness: the step characterization applied to the concrete arrayOf
and shape hops of the scenario. -/
theorem getNestedTypedef_step_spec_witness :
    getNestedTypedef arrayOfShapeNDef [.index 0] [] = .ok (some shapeNDef) ∧
    getNestedTypedef shapeNDef [.field "n"] [] = .ok (some intDef) ∧
    getNestedTypedef intDef [.field "n"] [] = .error (.incompatiblePathStep "int") := by
  refine ⟨?_, ?_, ?_⟩
  · exact (((getNestedTypedef_step_spec.1 arrayOfShapeNDef arrayOfShapeNDef [] "n" 0
      []).1 rfl).2.2.2.1 rfl)
  · exact (((getNestedTypedef_step_spec.1 shapeNDef shapeNDef [] "n" 0 []).1 rfl).2.1
      [("n", intDef)] rfl rfl)
  · exact (((getNestedTypedef_step_spec.1 intDef intDef [] "n" 0 []).1 rfl).2.2.1
      (by decide) (by decide))

/-- A short-circuiting every equals ok true exactly when the predicate is ok
true on every element. -/
theorem allExcept_ok_true_iff {α : Type} (l : List α) (f : α → Except JsError Bool) :
    allExcept l f = .ok true ↔ ∀ x ∈ l, f x = .ok true := by
  induction l with
  | nil => simp [allExcept]
  | cons x xs ih =>
    rw [allExcept]
    cases hfx : f x with
    | error e =>
      simp only [List.mem_cons]
      constructor
      · intro h; exact absurd h (by simp)
      · intro h; exact absurd (h x (Or.inl rfl)) (by simp [hfx])
    | ok b =>
      cases b with
      | false =>
        simp only [List.mem_cons]
        constructor
        · intro h; exact absurd h (by simp)
        · intro h; exact absurd (h x (Or.inl rfl)) (by simp [hfx])
      | true =>
        rw [ih]
        simp only [List.mem_cons]
        constructor
        · intro h y hy
          rcases hy with hy | hy
          · rw [hy, hfx]
          · exact h y hy
        · intro h y hy
          exact h y (Or.inr hy)

/-- A short-circuiting every is determined by the predicate's values on the
list. -/
theorem allExcept_congr {α : Type} (l : List α) (f g : α → Except JsError Bool)
    (h : ∀ x ∈ l, f x = g x) : allExcept l f = allExcept l g := by
  induction l with
  | nil => rfl
  | cons x xs ih =>
    rw [allExcept, allExcept, h x (by simp)]
    cases g x with
    | error e => rfl
    | ok b =>
      cases b with
      | false => rfl
      | true => exact ih (fun y hy => h y (by simp [hy]))

/-- Adding a property under a fresh key leaves every other property lookup
unchanged. -/
theorem getProp_obj_cons_ne (k kd : String) (x : Value) (ps : List (String × Value))
    (h : kd ≠ k) : getProp (.obj ((k, x) :: ps)) kd = getProp (.obj ps) kd := by
  have hk : ¬ (k = kd) := fun hh => h hh.symm
  simp [getProp, lookupProp, hk]

/-- A failed field lookup means no declared field bears the name. -/
theorem lookupField_none_forall (flds : List (String × TypeDef)) (k : String)
    (h : lookupField flds k = none) : ∀ p ∈ flds, p.1 ≠ k := by
  induction flds with
  | nil => intro p hp; cases hp
  | cons q qs ih =>
    intro p hp
    rw [lookupField] at h
    by_cases hq : q.1 = k
    · rw [if_pos hq] at h; cases h
    · rw [if_neg hq] at h
      rcases List.mem_cons.mp hp with hp | hp
      · rw [hp]; exact hq
      · exact ih h p hp

/-- A conditional of the shape of the per-field validator equals ok true
exactly when the absent branch allows the field and the present branch
validates. -/
theorem ite_ok_true_iff (c t : Bool) (V : Except JsError Bool) :
    (if c then Except.ok (!t) else V) = .ok true ↔
      (c = true → t = false) ∧ (c = false → V = .ok true) := by
  cases c with
  | true => cases t <;> simp
  | false => simp

/-- C10: the shape validator inspects only the declared fields.  First, a
value property under a name that the shape does not declare never changes
the verdict.  Second, a plain object is valid exactly when every declared
field is either present (not undefined) with a value that validates against
the field type, or absent with the field not marked required. -/
theorem isValidValue_shape_declared_fields_only :
    ∀ (fuel : Nat) (nn : Option Bool) (oft : Option TypeDef)
      (flds : List (String × TypeDef)) (op : Option (List Value)) (rq : Option Bool)
      (nm : Option String) (reg : Registry) (ps : List (String × Value))
      (k : String) (x : Value),
      (lookupField flds k = none →
        isValidValue fuel (.obj ((k, x) :: ps)) (.mk "shape" nn oft (some flds) op rq nm) reg =
        isValidValue fuel (.obj ps) (.mk "shape" nn oft (some flds) op rq nm) reg) ∧
      (isValidValue (fuel + 1) (.obj ps) (.mk "shape" nn oft (some flds) op rq nm) reg = .ok true ↔
        ∀ p ∈ flds,
          (isUndef (getProp (.obj ps) p.1) = true → truthy p.2.required = false) ∧
          (isUndef (getProp (.obj ps) p.1) = false →
            isValidValue fuel (getProp (.obj ps) p.1) p.2 reg = .ok true)) := by
  intro fuel nn oft flds op rq nm reg ps k x
  constructor
  · intro hnone
    cases fuel with
    | zero => rfl
    | succ fuel =>
      show allExcept flds _ = allExcept flds _
      apply allExcept_congr
      intro p hp
      rw [getProp_obj_cons_ne k p.1 x ps (lookupField_none_forall flds k hnone p hp)]
  · rw [show isValidValue (fuel + 1) (.obj ps) (.mk "shape" nn oft (some flds) op rq nm) reg
        = allExcept flds (fun p =>
            if isUndef (getProp (.obj ps) p.1) then .ok (!truthy p.2.required)
            else isValidValue fuel (getProp (.obj ps) p.1) p.2 reg) from rfl]
    rw [allExcept_ok_true_iff]
    apply forall_congr'
    intro p
    apply imp_congr_right
    intro _
    exact ite_ok_true_iff (isUndef (getProp (.obj ps) p.1)) (truthy p.2.required)
      (isValidValue fuel (getProp (.obj ps) p.1) p.2 reg)

/-- C10 witness: the characterization at a one-field shape, an undeclared
extra property, and a present valid field. -/
theorem isValidValue_shape_declared_fields_only_witness :
    (isValidValue 2 (.obj [("b", .num 9), ("x", .num 1)]) shapeXDef [] =
      isValidValue 2 (.obj [("x", .num 1)]) shapeXDef []) ∧
    (isValidValue 2 (.obj [("x", .num 1)]) shapeXDef [] = .ok true ↔
      ∀ p ∈ [("x", intDef)],
        (isUndef (getProp (.obj [("x", .num 1)]) p.1) = true →
          truthy p.2.required = false) ∧
        (isUndef (getProp (.obj [("x", .num 1)]) p.1) = false →
          isValidValue 1 (getProp (.obj [("x", .num 1)]) p.1) p.2 [] = .ok true)) := by
  refine ⟨(isValidValue_shape_declared_fields_only 2 none none [("x", intDef)]
    none none none [] [("x", .num 1)] "b" (.num 9)).1 rfl, ?_⟩
  exact (isValidValue_shape_declared_fields_only 1 none none [("x", intDef)]
    none none none [] [("x", .num 1)] "b" (.num 9)).2

/-- An element-wise map fails with the error of some element. -/
theorem mapExcept_error_exists {α β : Type} :
    ∀ (l : List α) (f : α → Except JsError β) (e : JsError),
      mapExcept l f = .error e → ∃ x ∈ l, f x = .error e := by
  intro l f e
  induction l with
  | nil => intro h; rw [mapExcept] at h; cases h
  | cons x xs ih =>
    intro h
    rw [mapExcept] at h
    cases hfx : f x with
    | error e' =>
      rw [hfx] at h
      injection h with h'
      exact ⟨x, by simp, by rw [hfx, h']⟩
    | ok y =>
      rw [hfx] at h
      cases hm : mapExcept xs f with
      | error e' =>
        rw [hm] at h
        injection h with h'
        obtain ⟨z, hz, hfz⟩ := ih (by rw [hm, h'])
        exact ⟨z, by simp [hz], hfz⟩
      | ok ys => rw [hm] at h; cases h

set_option maxHeartbeats 1000000 in
/-- Any cannot-coerce error raised anywhere inside a coercion names a kind
pair that is absent from the coerce table: the error is only created at the
table lookup, with exactly the looked-up pair, and every recursion
propagates it unchanged. -/
theorem coerceValue_uncoercible_absent :
    ∀ (fuel : Nat) (v : Value) (a b : TypeDef) (rf rt : Registry) (p q : String),
      coerceValue fuel v a b rf rt = .error (.uncoercibleType p q) →
      coerceTableHas q p = false := by
  intro fuel
  induction fuel with
  | zero =>
    intro v a b rf rt p q h
    rw [coerceValue] at h
    cases h
  | succ fuel ih =>
    intro v a b rf rt p q h
    rw [coerceValue] at h
    split at h
    · simp at h
    · split at h
      · simp at h
      · split at h
        · simp at h
        · split at h
          · simp only [Except.error.injEq, JsError.uncoercibleType.injEq] at h
            obtain ⟨hp, hq⟩ := h
            rw [← hp, ← hq]
            rename_i hcond
            simpa using hcond
          · split at h
            · split at h <;> simp at h
            · split at h
              · simp at h
              · split at h
                · cases v <;> simp [lengthNonZero] at h
                · simp at h
            · simp at h
            · simp at h
            · simp at h
            · simp at h
            · -- arrayOf
              split at h
              · split at h
                · rename_i heq
                  injection h with h'
                  subst h'
                  obtain ⟨it, hit, hf⟩ := mapExcept_error_exists _ _ _ heq
                  split at hf
                  · exact ih _ _ _ _ _ _ _ hf
                  · simp at hf
                  · split at hf <;> simp at hf
                · simp at h
              · simp at h
            · simp at h
            · -- objectOf
              split at h
              · simp at h
              · split at h
                · rename_i heq
                  injection h with h'
                  subst h'
                  obtain ⟨pr, hpr, hf⟩ := mapExcept_error_exists _ _ _ heq
                  split at hf
                  · split at hf
                    · rename_i heq2
                      injection hf with h2
                      subst h2
                      exact ih _ _ _ _ _ _ _ heq2
                    · simp at hf
                  · simp at hf
                  · split at hf <;> simp at hf
                · simp at h
              · split at h
                · rename_i heq
                  injection h with h'
                  subst h'
                  obtain ⟨it, hit, hf⟩ := mapExcept_error_exists _ _ _ heq
                  split at hf
                  · exact ih _ _ _ _ _ _ _ hf
                  · simp at hf
                  · split at hf <;> simp at hf
                · simp at h
              · simp at h
            · -- shape
              split at h
              · simp at h
              · simp at h
              · split at h
                · split at h
                  · rename_i heq
                    injection h with h'
                    subst h'
                    obtain ⟨pr, hpr, hf⟩ := mapExcept_error_exists _ _ _ heq
                    split at hf
                    · simp at hf
                    · split at hf
                      · split at hf
                        · rename_i heq2
                          injection hf with h2
                          subst h2
                          exact ih _ _ _ _ _ _ _ heq2
                        · simp at hf
                      · split at hf <;> simp at hf
                  · simp at h
                · simp at h
            · simp at h
            · simp at h

/-- C6: for resolvable operands whose destination resolves to a built-in
kind, coerceValue fails with the cannot-coerce error naming the resolved
source and destination kinds exactly when the destination kind's coerce
table has no entry for the source kind; and the two concrete scenarios:
5 coerced from int to string yields the string 5, and a string coerced to
int fails with the cannot-coerce error. -/
theorem coerceValue_uncoercible_iff :
    (∀ (fuel : Nat) (v : Value) (tdF tdT rF rT : TypeDef) (regF regT : Registry),
      resolveTypedef tdF regF = some rF →
      resolveTypedef tdT regT = some rT →
      isBuiltinType rT.type = true →
      (coerceValue (fuel + 1) v tdF tdT regF regT =
          .error (.uncoercibleType rF.type rT.type) ↔
        coerceTableHas rT.type rF.type = false)) ∧
    coerceValue 1 (.num 5) intDef strDef [] [] = .ok (.str "5") ∧
    coerceValue 1 (.str "abc") strDef intDef [] [] =
      .error (.uncoercibleType "string" "int") := by
  refine ⟨?_, rfl, rfl⟩
  intro fuel v tdF tdT rF rT regF regT hF hT hb
  constructor
  · intro h
    exact coerceValue_uncoercible_absent (fuel + 1) v tdF tdT regF regT rF.type rT.type h
  · intro habs
    have h1 : hasTypesEntry rT.type = true := by simp [hasTypesEntry, hb]
    rw [coerceValue, hF, hT]
    simp [h1, habs]

/-- C6 witness: the characterization applied to a coercion from bool to
string, a pair absent from the string coerce table. -/
theorem coerceValue_uncoercible_iff_witness :
    coerceValue 1 (.bool true) boolDef strDef [] [] =
      .error (.uncoercibleType "bool" "string") :=
  (coerceValue_uncoercible_iff.1 0 (.bool true) boolDef strDef boolDef strDef
    [] [] rfl rfl rfl).mpr rfl

end Booben
